import Mathlib

set_option maxHeartbeats 1000000

/-
Shallow embedding of src/PZ-Remote_Mod_Watchdog.py (ProjectZomboid -
Remote Mod Watchdog).  Pure data flow is translated to Lean functions;
the effectful parts (remote-console commands, sleeps, file writes,
network requests) are made explicit: the restart orchestration produces
a trace of events, the metadata fetcher is parameterised by a network
oracle giving the outcome of each attempt of each batch, and the drift
detector takes the snapshot read as an Option (none models a missing or
unreadable or malformed snapshot file) and returns the write it performs
as data.
-/

/-- A workshop mod record as built by fetch_workshop_details (lines
288-295 of the source): the fields copied out of one
publishedfiledetails response object. -/
structure ModRecord where
  name : String
  tags : List String
  time_created : Nat
  time_updated : Nat
  num_children : Nat
  children : List String
  deriving DecidableEq, Repr

/-- One entry of the persisted snapshot file written by
write_modInfo_timeUpdated_file (lines 333-338): name and time_updated. -/
structure SnapEntry where
  name : String
  time_updated : Nat
  deriving DecidableEq, Repr

/-- First-match lookup in an association list, modelling Python dict
key membership and subscription for the snapshot JSON object. -/
def lookupKey {α : Type} (d : List (String × α)) (k : String) : Option α :=
  match d with
  | [] => none
  | (k2, v) :: rest => if k2 = k then some v else lookupKey rest k

/-- The body of the per-mod loop of are_mods_outdated (lines 355-366):
yields the mod id when the mod is absent from the snapshot, or present
with a strictly greater remote time_updated; yields none otherwise. -/
def isOutdatedEntry (snap : List (String × SnapEntry)) (p : String × ModRecord) :
    Option String :=
  match lookupKey snap p.1 with
  | some e => if e.time_updated < p.2.time_updated then some p.1 else none
  | none => some p.1

/-- The outdated list accumulated by are_mods_outdated over the fresh
mapping, in iteration order. -/
def outdatedIds (modInfo : List (String × ModRecord))
    (snap : List (String × SnapEntry)) : List String :=
  modInfo.filterMap (isOutdatedEntry snap)

/-- The data object written by write_modInfo_timeUpdated_file (lines
333-338): for every fresh mod, its (id, name, time_updated) triple. -/
def snapshotData (modInfo : List (String × ModRecord)) :
    List (String × SnapEntry) :=
  modInfo.map (fun p => (p.1, ⟨p.2.name, p.2.time_updated⟩))

/-- Result of the drift check: the boolean it returns and the snapshot
content it writes to the local file, if it writes one. -/
structure DetectResult where
  outdated : Bool
  written : Option (List (String × SnapEntry))
  deriving DecidableEq, Repr

/-- are_mods_outdated (lines 346-370).  The snapshot read is none when
opening or JSON-decoding the local file raises (lines 348-353), in which
case the function returns False having written nothing.  Otherwise it
collects the outdated ids; when the list is nonempty it rewrites the
snapshot file in full via write_modInfo_timeUpdated_file and returns
whether the list is nonempty. -/
def are_mods_outdated (modInfo : List (String × ModRecord))
    (snapRead : Option (List (String × SnapEntry))) : DetectResult :=
  match snapRead with
  | none => ⟨false, none⟩
  | some snap =>
    let out := outdatedIds modInfo snap
    if out.isEmpty then ⟨false, none⟩
    else ⟨true, some (snapshotData modInfo)⟩

/-- Observable effects of the restart orchestration: remote-console
connection, roster query, servermsg broadcast, asyncio sleep (seconds),
save command, quit command, per-player kick. -/
inductive Ev where
  | connectRcon
  | queryPlayers
  | servermsg (msg : String)
  | sleep (seconds : Nat)
  | saveCmd
  | quitCmd
  | kick (player : String)
  deriving DecidableEq, Repr

/-- WARNING_MESSAGE (line 52) with the minutes substituted. -/
def warningMessage (minutes : Nat) : String :=
  "[SERVER] Restart in " ++ toString minutes ++ " minutes due to a mod update!"

/-- RESTART_MESSAGE (line 53) with the seconds substituted. -/
def restartMessage (seconds : Nat) : String :=
  "[SERVER] Server is restarting now due to a mod update! Please disconnect within "
    ++ toString seconds ++ "sec or get kicked!"

/-- send_rcon_message (lines 121-129): the text actually broadcast,
with the test-mode suffix appended when test_mode is set. -/
def send_rcon_message_text (message : String) (test_mode : Bool) : String :=
  if test_mode then message ++ " (TEST)" else message

/-- The body of the nested async helper saveAndQuit (lines 162-165):
save command, sleep of RESTART_TIMEOUT seconds, quit command.  This is
what the coroutine would do if it were awaited. -/
def saveAndQuitIntended (T : Nat) : List Ev :=
  [Ev.saveCmd, Ev.sleep T, Ev.quitCmd]

/-- At every call site (lines 172, 195, 198) saveAndQuit is invoked
without await.  Calling an async function in Python only constructs a
coroutine object; its body never runs unless awaited, so none of the
save, sleep or quit effects occur.  The call therefore contributes no
events to the trace. -/
def saveAndQuitUnawaited : List Ev := []

/-- Events of one countdown tick (lines 178-180): broadcast the warning
naming the minutes remaining, sleep 60 seconds, re-query the roster. -/
def warnTick (tm : Bool) (m : Nat) : List Ev :=
  [Ev.servermsg (send_rcon_message_text (warningMessage m) tm),
   Ev.sleep 60, Ev.queryPlayers]

/-- The countdown loop of warn_and_restart (lines 177-184):
for minutes_left in range(N, 0, -1).  The first argument of the
recursion is the number of iterations left (which equals the announced
minutes_left), the second the index of the next roster query.  Returns
the events emitted, the _playersGone flag, and the next query index. -/
def countdownLoop (tm : Bool) (rosters : Nat → List String) :
    Nat → Nat → List Ev × Bool × Nat
  | 0, q => ([], false, q)
  | k+1, q =>
    if (rosters q).isEmpty then (warnTick tm (k+1), true, q + 1)
    else
      let rest := countdownLoop tm rosters k (q + 1)
      (warnTick tm (k+1) ++ rest.1, rest.2.1, rest.2.2)

/-- warn_and_restart (lines 160-200), as a trace of events.  N is
COUNTDOWN_MINUTES, T is RESTART_TIMEOUT; rosters gives the result of the
q-th get_connected_players call (query 0 is the initial one at line
169).  Note the three saveAndQuit call sites invoke the coroutine
without await, so they emit saveAndQuitUnawaited = []. -/
def warn_and_restart (test_mode : Bool) (N T : Nat)
    (rosters : Nat → List String) : List Ev :=
  let intro := [Ev.connectRcon, Ev.queryPlayers]
  if (rosters 0).isEmpty && !test_mode then
    intro ++ saveAndQuitUnawaited
  else
    let r := countdownLoop test_mode rosters N 1
    let base := intro ++ r.1
    if !r.2.1 then
      let base2 := base ++
        [Ev.servermsg (send_rcon_message_text (restartMessage (T * 2)) test_mode)]
      if !test_mode then
        let players2 := rosters r.2.2
        base2 ++ [Ev.sleep (T * 2), Ev.queryPlayers] ++
          (if !players2.isEmpty then players2.map Ev.kick ++ [Ev.sleep 2] else []) ++
          saveAndQuitUnawaited
      else base2
    else
      if !test_mode then base ++ saveAndQuitUnawaited else base

/-- The events of a full countdown of N ticks that never finds the
roster empty: warnTick N, warnTick (N-1), ..., warnTick 1. -/
def countdownEvents (tm : Bool) : Nat → List Ev
  | 0 => []
  | k+1 => warnTick tm (k+1) ++ countdownEvents tm k

/-- The descending list [N, N-1, ..., 1] of announced minutes. -/
def descList : Nat → List Nat
  | 0 => []
  | k+1 => (k+1) :: descList k

/-- Recogniser for broadcast events. -/
def isServermsgEv : Ev → Bool
  | Ev.servermsg _ => true
  | _ => false

/-- Number of servermsg broadcasts in a trace. -/
def countMsgs (evs : List Ev) : Nat := evs.countP isServermsgEv

/-- Recogniser for kick events. -/
def isKickEv : Ev → Bool
  | Ev.kick _ => true
  | _ => false

/-- Result of one detection-and-handling run: the snapshot write
performed by the detector, and the orchestration trace when drift was
found (none when no drift). -/
structure RunResult where
  written : Option (List (String × SnapEntry))
  orchestration : Option (List Ev)
  deriving DecidableEq, Repr

/-- check_mods_and_handle (lines 373-377): run the drift check (which
performs its snapshot rewrite before returning), then run
warn_and_restart exactly when drift was reported. -/
def check_mods_and_handle (modInfo : List (String × ModRecord))
    (snapRead : Option (List (String × SnapEntry))) (test_mode : Bool)
    (N T : Nat) (rosters : Nat → List String) : RunResult :=
  let d := are_mods_outdated modInfo snapRead
  ⟨d.written, if d.outdated then some (warn_and_restart test_mode N T rosters) else none⟩

/-- File-system operations, for describing how the snapshot file is
written. -/
inductive FsOp where
  | openTruncate (path : String)
  | writeJson (data : List (String × SnapEntry))
  | closeFile
  | rename (src dst : String)
  deriving DecidableEq, Repr

/-- The file operations performed by write_modInfo_timeUpdated_file
(lines 339-343): it opens the target path itself with mode w - which
truncates the existing file in place - then json.dump writes the new
content into that same handle, then the handle is closed.  No temporary
file is created and no rename is performed. -/
def writeSnapshotOps (modInfo : List (String × ModRecord)) (path : String) :
    List FsOp :=
  [FsOp.openTruncate path, FsOp.writeJson (snapshotData modInfo), FsOp.closeFile]

/-- Whether a write procedure publishes through a rename of a temporary
location, the mechanism the specification requires for atomicity. -/
def usesTempAndRename (ops : List FsOp) : Bool :=
  ops.any (fun op => match op with | FsOp.rename _ _ => true | _ => false)

/-- Observable content of the snapshot file on disk: a parseable
snapshot, or a truncated / partially written file that json.load cannot
parse. -/
inductive OnDisk where
  | snapshot (s : List (String × SnapEntry))
  | corrupt
  deriving DecidableEq, Repr

/-- The on-disk states a crash can expose during
write_modInfo_timeUpdated_file: before the open the old content; after
the truncating open but before json.dump completes, a truncated or
partially written file; after the dump completes, the new content. -/
def writeSnapshotCrashStates (old : OnDisk)
    (modInfo : List (String × ModRecord)) : List OnDisk :=
  [old, OnDisk.corrupt, OnDisk.snapshot (snapshotData modInfo)]

/-- Outcome of one HTTP attempt for one batch in
fetch_workshop_details (lines 261-282): a requests exception, an HTTP
429 response, a bad response (raise_for_status or JSON decoding fails),
or a successful response carrying the parsed publishedfiledetails list
as (publishedfileid, record) pairs. -/
inductive AttemptOutcome where
  | netError
  | rateLimited
  | badResponse
  | success (details : List (String × ModRecord))

/-- Whether an attempt succeeded. -/
def AttemptOutcome.isSuccess : AttemptOutcome → Bool
  | .success _ => true
  | _ => false

/-- The cap applied to the backoff wait: 60 seconds for a rate-limit
response (line 270), 30 seconds otherwise (lines 265 and 279). -/
def capFor : AttemptOutcome → Nat
  | .rateLimited => 60
  | _ => 30

/-- The wait performed after the failed attempt with 0-based index
a: min(2 ** a, cap) seconds (lines 265, 270, 279). -/
def backoffWait (o : AttemptOutcome) (attempt : Nat) : Nat :=
  min (2 ^ attempt) (capFor o)

/-- The backoff delay the specification sentence asserts: base 2
seconds, doubling on each attempt, capped at 30 seconds for generic
errors and 60 for rate limiting. -/
def claimedBackoffWait (o : AttemptOutcome) (attempt : Nat) : Nat :=
  min (2 * 2 ^ attempt) (capFor o)

/-- The retry loop for one batch (lines 261-285): for attempt in
range(5).  On success the parsed data is returned with no further
waiting; on failure the backoff wait is performed and the next attempt
begins; when all attempts fail the batch is abandoned (none).  Returns
the result and the list of waits performed.  First argument is the fuel
(attempts remaining), second the 0-based index of the next attempt. -/
def runBatchAux (o : Nat → AttemptOutcome) :
    Nat → Nat → Option (List (String × ModRecord)) × List Nat
  | 0, _ => (none, [])
  | fuel+1, a =>
    match o a with
    | .success d => (some d, [])
    | f =>
      let rest := runBatchAux o fuel (a + 1)
      (rest.1, backoffWait f a :: rest.2)

/-- One batch request with the retry policy of the source: 5 attempts
starting at attempt index 0. -/
def runBatch (o : Nat → AttemptOutcome) :
    Option (List (String × ModRecord)) × List Nat :=
  runBatchAux o 5 0

/-- Consecutive slices of length at most n, mirroring
for i in range(0, len(l), n): l[i:i+n] for n greater than 0. -/
def chunks {α : Type} (n : Nat) : List α → List (List α)
  | [] => []
  | x :: xs => (x :: xs.take (n - 1)) :: chunks n (xs.drop (n - 1))
  termination_by l => l.length
  decreasing_by simp only [List.length_drop, List.length_cons]; omega

/-- Python dict assignment d[k] = v on an insertion-ordered
association list: overwrite in place when the key exists, append
otherwise. -/
def dictInsert {α : Type} (d : List (String × α)) (k : String) (v : α) :
    List (String × α) :=
  if d.any (fun p => p.1 = k) then
    d.map (fun p => if p.1 = k then (k, v) else p)
  else d ++ [(k, v)]

/-- Python dict.update(upd): assign every pair of upd in order. -/
def dictUpdate {α : Type} (d upd : List (String × α)) : List (String × α) :=
  upd.foldl (fun acc p => dictInsert acc p.1 p.2) d

/-- The key list of an association list, in insertion order. -/
def keys {α : Type} (d : List (String × α)) : List String := d.map Prod.fst

/-- The per-batch loop of fetch_workshop_details (lines 253-296): for
each batch run the retry loop; when it exhausts, log and continue with
the accumulator unchanged (line 285); on success assign every returned
(publishedfileid, record) pair into the accumulating dict (lines
286-295).  The second argument is the batch index fed to the network
oracle. -/
def fetchAux (net : Nat → Nat → AttemptOutcome) :
    List (List String) → Nat → List (String × ModRecord) →
    List (String × ModRecord)
  | [], _, acc => acc
  | _c :: cs, b, acc =>
    match (runBatch (net b)).1 with
    | none => fetchAux net cs (b + 1) acc
    | some data => fetchAux net cs (b + 1) (dictUpdate acc data)

/-- fetch_workshop_details (lines 241-300): empty input returns the
empty dict with no network activity; otherwise the ids are sliced into
batches of at most batch_size (default 100 in the source signature) and
each batch is fetched with retries.  net gives the outcome of attempt a
of batch b. -/
def fetch_workshop_details (mod_ids : List String) (batch_size : Nat)
    (net : Nat → Nat → AttemptOutcome) : List (String × ModRecord) :=
  if mod_ids.isEmpty then [] else fetchAux net (chunks batch_size mod_ids) 0 []

/-- The outer loop of create_modInfo (lines 308-313): slice the id list
at BATCH_SIZE, fetch each slice (fetch_workshop_details is called with
its default batch_size of 100), and merge nonempty results into the
accumulator with dict.update. -/
def create_modInfoAux (net : Nat → Nat → Nat → AttemptOutcome) :
    List (List String) → Nat → List (String × ModRecord) →
    List (String × ModRecord)
  | [], _, acc => acc
  | c :: cs, b, acc =>
    let data := fetch_workshop_details c 100 (net b)
    create_modInfoAux net cs (b + 1) (if data.isEmpty then acc else dictUpdate acc data)

/-- create_modInfo (lines 303-313).  BATCH is BATCH_SIZE (default 50);
net b i a is the outcome of attempt a of inner batch i of outer slice
b. -/
def create_modInfo (BATCH : Nat) (workshop_ids : List String)
    (net : Nat → Nat → Nat → AttemptOutcome) : List (String × ModRecord) :=
  if workshop_ids.isEmpty then []
  else create_modInfoAux net (chunks BATCH workshop_ids) 0 []

/-- Names bound in the module scope of the script: the imported names
(lines 9-26) and the constants and functions the module defines.  The
manual broadcast path references a name that is not among them. -/
def moduleNames : List String :=
  ["os", "sys", "json", "time", "logging", "asyncio", "argparse", "paramiko",
   "requests", "subprocess", "timeout_decorator", "Path", "load_dotenv",
   "ZomboidRCON", "datetime", "timezone", "RotatingFileHandler", "timeout",
   "TimeoutError", "List", "Dict", "Tuple", "Iterable", "Optional", "Any",
   "STEAM_API_KEY", "STEAM_API_USE_PFS", "STEAM_API_URL_SR", "STEAM_API_URL_PFS",
   "RCON_HOST", "RCON_PORT", "RCON_PASSWORD", "SFTP_HOST", "SFTP_PORT",
   "SFTP_USER", "SFTP_PASSWORD", "SFTP_REMOTE_FILE", "LOCAL_SERVER_INI",
   "BATCH_SIZE", "RESTART_TIMEOUT", "COUNTDOWN_MINUTES", "WARNING_MESSAGE",
   "RESTART_MESSAGE", "DISCORD_MODLIST_FILE", "LOCAL_MODINFO_FILE",
   "DEFAULT_WORKSHOP_URL", "script_name", "log_file", "log_handler",
   "log_format", "console_handler", "logger", "PID_FILE",
   "check_required_env", "check_pid", "remove_pid", "send_rcon_message",
   "send_manual_message", "get_connected_players", "kick_all_players",
   "warn_and_restart", "sftp_download", "read_enabled_mods",
   "fetch_workshop_details", "create_modInfo", "write_discord_modlist",
   "write_modInfo_timeUpdated_file", "are_mods_outdated",
   "check_mods_and_handle", "main"]

/-- Result of running a piece of Python: a value, or an uncaught
NameError raised when an unbound name is referenced. -/
inductive PyRun (α : Type) where
  | ok (a : α)
  | nameError (n : String)
  deriving DecidableEq, Repr

/-- send_manual_message (lines 132-135).  Line 134 constructs the
console client via the name ZomboidRCONient.  Python resolves that name
at call time; a name not bound in any enclosing scope raises NameError
before any connection is opened or message sent.  Were the name bound
to the console client class, the path would open a session and send the
one message (send_rcon_message is called with its default test_mode
False, so no test suffix). -/
def send_manual_message (message : String) : PyRun (List Ev) :=
  if moduleNames.contains "ZomboidRCONient" then
    PyRun.ok [Ev.connectRcon, Ev.servermsg (send_rcon_message_text message false)]
  else PyRun.nameError "ZomboidRCONient"

/-- Concrete fresh mapping used in witnesses: one mod updated at 150. -/
def sampleFresh : List (String × ModRecord) :=
  [("111", ⟨"SampleMod", [], 10, 150, 0, []⟩)]

/-- Concrete persisted snapshot used in witnesses: the same mod
recorded at 100. -/
def sampleSnap : List (String × SnapEntry) :=
  [("111", ⟨"SampleMod", 100⟩)]

/-- Roster oracle for the early-exit scenario: one player is online for
the initial query and the re-query after the first tick, and the roster
is empty from the re-query after the second tick on. -/
def c5rosters : Nat → List String := fun q => if q < 2 then ["p1"] else []


/-
Theorems.
-/

/-- Claim C1: for every fresh mapping and every readable snapshot,
are_mods_outdated returns true if and only if at least one id in the
fresh mapping is absent from the snapshot or has a time_updated strictly
greater than the recorded value; in particular it returns false when the
two agree on (id, time_updated) for every fresh id. -/
theorem drift_detection_iff (modInfo : List (String × ModRecord))
    (snap : List (String × SnapEntry)) :
    (are_mods_outdated modInfo (some snap)).outdated = true ↔
      ∃ p ∈ modInfo, lookupKey snap p.1 = none ∨
        ∃ e, lookupKey snap p.1 = some e ∧ e.time_updated < p.2.time_updated := by
  have hentry : ∀ p : String × ModRecord,
      isOutdatedEntry snap p ≠ none ↔
        (lookupKey snap p.1 = none ∨
          ∃ e, lookupKey snap p.1 = some e ∧ e.time_updated < p.2.time_updated) := by
    intro p
    unfold isOutdatedEntry
    cases h : lookupKey snap p.1 with
    | none => simp
    | some e =>
      by_cases ht : e.time_updated < p.2.time_updated
      · simp [ht]
      · simp [ht]
  constructor
  · intro h
    have hne : outdatedIds modInfo snap ≠ [] := by
      intro hnil
      simp [are_mods_outdated, outdatedIds] at h
      rw [show modInfo.filterMap (isOutdatedEntry snap) = outdatedIds modInfo snap from rfl,
        hnil] at h
      simp at h
    have := mt List.filterMap_eq_nil_iff.mpr hne
    push_neg at this
    obtain ⟨p, hp, hf⟩ := this
    exact ⟨p, hp, (hentry p).1 hf⟩
  · rintro ⟨p, hp, hcond⟩
    have hf : isOutdatedEntry snap p ≠ none := (hentry p).2 hcond
    have hne : outdatedIds modInfo snap ≠ [] := by
      intro hnil
      exact hf (List.filterMap_eq_nil_iff.mp hnil p hp)
    have hemp : (outdatedIds modInfo snap).isEmpty = false :=
      List.isEmpty_eq_false.mpr hne
    simp [are_mods_outdated, hemp]

/-- Claim C6: for every fresh mapping, when the snapshot file cannot be
read (missing, unreadable or malformed JSON, modelled as a none read),
are_mods_outdated returns false and performs no write, leaving the
snapshot file unchanged. -/
theorem snapshot_read_failure_no_drift (modInfo : List (String × ModRecord)) :
    are_mods_outdated modInfo none = ⟨false, none⟩ := rfl

/-- Claim C2, evaluated at its failing input: with an empty roster and
test mode off, warn_and_restart only connects and queries the roster.
It indeed sends no warning broadcast, but because saveAndQuit is an
async function invoked without await (line 172), its coroutine never
runs: no save command, no settle sleep and no quit command are issued,
contradicting the claimed save / wait / stop sequence. -/
theorem quickstop_unawaited :
    warn_and_restart false 5 5 (fun _ => []) = [Ev.connectRcon, Ev.queryPlayers] ∧
    countMsgs (warn_and_restart false 5 5 (fun _ => [])) = 0 ∧
    Ev.saveCmd ∉ warn_and_restart false 5 5 (fun _ => []) ∧
    Ev.quitCmd ∉ warn_and_restart false 5 5 (fun _ => []) ∧
    warn_and_restart false 5 5 (fun _ => []) ≠
      [Ev.connectRcon, Ev.queryPlayers] ++ saveAndQuitIntended 5 := by
  decide

/-- Claim C3, counterexample to the atomicity half: the snapshot write
opens the target file itself in truncating write mode and dumps into it,
using no temporary location and no rename, so a crash between the
truncating open and the completed dump exposes a state that is neither
the old snapshot nor the new one. -/
theorem snapshot_write_not_atomic_cex :
    usesTempAndRename (writeSnapshotOps sampleFresh "/tmp/modInfos.json") = false ∧
    OnDisk.corrupt ∈ writeSnapshotCrashStates (OnDisk.snapshot sampleSnap) sampleFresh ∧
    OnDisk.corrupt ≠ OnDisk.snapshot sampleSnap ∧
    OnDisk.corrupt ≠ OnDisk.snapshot (snapshotData sampleFresh) := by
  decide

/-- Claim C3 as amended: whenever drift is detected the snapshot file is
rewritten in full to the (id, name, time_updated)
triples of the fresh mapping, but the rewrite is not atomic: the file is opened in place with
truncation and dumped into directly, with no temporary location and no
rename, so a crash mid-write can leave a truncated or partial file. -/
theorem snapshot_full_rewrite_amended (modInfo : List (String × ModRecord))
    (snap : List (String × SnapEntry))
    (h : (are_mods_outdated modInfo (some snap)).outdated = true) :
    (are_mods_outdated modInfo (some snap)).written = some (snapshotData modInfo) ∧
    snapshotData modInfo =
      modInfo.map (fun p => (p.1, ⟨p.2.name, p.2.time_updated⟩)) ∧
    OnDisk.corrupt ∈ writeSnapshotCrashStates (OnDisk.snapshot snap) modInfo ∧
    usesTempAndRename (writeSnapshotOps modInfo "/tmp/modInfos.json") = false := by
  refine ⟨?_, rfl, ?_, ?_⟩
  · by_cases he : (outdatedIds modInfo snap).isEmpty
    · simp [are_mods_outdated, he] at h
    · simp only [Bool.not_eq_true] at he
      simp [are_mods_outdated, he]
  · simp [writeSnapshotCrashStates]
  · rfl

/-- Witness for snapshot_full_rewrite_amended at a concrete drifted
input. -/
theorem snapshot_full_rewrite_amended_witness :
    (are_mods_outdated sampleFresh (some sampleSnap)).written =
      some (snapshotData sampleFresh) ∧
    snapshotData sampleFresh =
      sampleFresh.map (fun p => (p.1, ⟨p.2.name, p.2.time_updated⟩)) ∧
    OnDisk.corrupt ∈ writeSnapshotCrashStates (OnDisk.snapshot sampleSnap) sampleFresh ∧
    usesTempAndRename (writeSnapshotOps sampleFresh "/tmp/modInfos.json") = false :=
  snapshot_full_rewrite_amended sampleFresh sampleSnap (by decide)

/-- Claim C7, counterexample to the delay schedule: with every attempt
failing on a network error, the waits actually performed are 1, 2, 4, 8
and 16 seconds (min(2 ** attempt, 30) starting at attempt 0), not the
claimed base-2-seconds doubling schedule 2, 4, 8, 16, 30. -/
theorem backoff_base_two_cex :
    (runBatch (fun _ => AttemptOutcome.netError)).2 = [1, 2, 4, 8, 16] ∧
    (List.range 5).map (claimedBackoffWait AttemptOutcome.netError) =
      [2, 4, 8, 16, 30] ∧
    (runBatch (fun _ => AttemptOutcome.netError)).2 ≠
      (List.range 5).map (claimedBackoffWait AttemptOutcome.netError) := by
  decide

/-- Claim C9, evaluated at its failing input: the manual broadcast path
references the unbound name ZomboidRCONient (line 134; the imported
client class is named ZomboidRCON), so it raises NameError before
opening a console session or sending anything, instead of broadcasting
the message. -/
theorem manual_broadcast_name_error :
    send_manual_message "Hello players" = PyRun.nameError "ZomboidRCONient" ∧
    moduleNames.contains "ZomboidRCON" = true ∧
    moduleNames.contains "ZomboidRCONient" = false :=
  ⟨rfl, rfl, rfl⟩

/-- Helper: countP distributes over append, specialised to countMsgs. -/
theorem countMsgs_append (a b : List Ev) :
    countMsgs (a ++ b) = countMsgs a + countMsgs b :=
  List.countP_append _ _ _

/-- Helper: when the roster is never empty, the countdown loop runs all
its ticks, never sets _playersGone, and consumes one roster query per
tick. -/
theorem countdownLoop_all_nonempty (tm : Bool) (rosters : Nat → List String)
    (h : ∀ q, rosters q ≠ []) :
    ∀ N q, countdownLoop tm rosters N q = (countdownEvents tm N, false, q + N) := by
  intro N
  induction N with
  | zero => intro q; simp [countdownLoop, countdownEvents]
  | succ k ih =>
    intro q
    have hq : (rosters q).isEmpty = false := List.isEmpty_eq_false.mpr (h q)
    simp [countdownLoop, hq, ih (q + 1), countdownEvents, Prod.ext_iff]
    omega

/-- Helper: a full countdown of N ticks broadcasts exactly N warnings. -/
theorem countMsgs_countdownEvents (tm : Bool) :
    ∀ N, countMsgs (countdownEvents tm N) = N := by
  intro N
  induction N with
  | zero => rfl
  | succ k ih =>
    show countMsgs (warnTick tm (k+1) ++ countdownEvents tm k) = k + 1
    rw [countMsgs_append, ih]
    have h1 : countMsgs (warnTick tm (k+1)) = 1 := rfl
    omega

/-- Helper: the full countdown is the concatenation of the warn ticks
for the descending minute counts. -/
theorem countdownEvents_eq_join (tm : Bool) :
    ∀ N, countdownEvents tm N = ((descList N).map (warnTick tm)).flatten := by
  intro N
  induction N with
  | zero => rfl
  | succ k ih => simp [countdownEvents, descList, ih]

/-- Helper: the announced minutes are N, N-1, ..., 1. -/
theorem descList_eq_range_map :
    ∀ N, descList N = (List.range N).map (fun i => N - i) := by
  intro N
  induction N with
  | zero => rfl
  | succ k ih =>
    rw [descList, List.range_succ_eq_map, ih, List.map_cons, List.map_map]
    refine congrArg₂ _ (by omega) ?_
    exact List.map_congr_left (fun i _ => by simp only [Function.comp_apply]; omega)

/-- Claim C4: for every tick count N and roster sequence that is never
empty, the countdown performs exactly N warning broadcasts before the
final (restart) warning; the broadcasts name the minutes remaining in
descending order N, N-1, ..., 1, and each warn tick is the broadcast
followed by a 60-second suspension (and the roster re-query). -/
theorem countdown_exact_ticks (tm : Bool) (N T : Nat)
    (rosters : Nat → List String) (h : ∀ q, rosters q ≠ []) :
    (∃ rest, warn_and_restart tm N T rosters =
        Ev.connectRcon :: Ev.queryPlayers :: (countdownEvents tm N ++
          Ev.servermsg (send_rcon_message_text (restartMessage (T * 2)) tm) :: rest)) ∧
    countMsgs (countdownEvents tm N) = N ∧
    countdownEvents tm N = ((descList N).map (warnTick tm)).flatten ∧
    descList N = (List.range N).map (fun i => N - i) := by
  refine ⟨?_, countMsgs_countdownEvents tm N, countdownEvents_eq_join tm N,
    descList_eq_range_map N⟩
  have h0 : (rosters 0).isEmpty = false := List.isEmpty_eq_false.mpr (h 0)
  have hc := countdownLoop_all_nonempty tm rosters h N 1
  cases tm with
  | false =>
    refine ⟨[Ev.sleep (T * 2), Ev.queryPlayers] ++
      (if !(rosters (1 + N)).isEmpty
        then (rosters (1 + N)).map Ev.kick ++ [Ev.sleep 2] else []) ++
      saveAndQuitUnawaited, ?_⟩
    simp [warn_and_restart, h0, hc, saveAndQuitUnawaited]
  | true =>
    refine ⟨[], ?_⟩
    simp [warn_and_restart, h0, hc, saveAndQuitUnawaited]

/-- Witness for countdown_exact_ticks with N = 2 ticks, T = 5 and a
roster that always holds one player. -/
theorem countdown_exact_ticks_witness :
    (∃ rest, warn_and_restart false 2 5 (fun _ => ["p1"]) =
        Ev.connectRcon :: Ev.queryPlayers :: (countdownEvents false 2 ++
          Ev.servermsg (send_rcon_message_text (restartMessage (5 * 2)) false) :: rest)) ∧
    countMsgs (countdownEvents false 2) = 2 ∧
    countdownEvents false 2 = ((descList 2).map (warnTick false)).flatten ∧
    descList 2 = (List.range 2).map (fun i => 2 - i) :=
  countdown_exact_ticks false 2 5 (fun _ => ["p1"]) (fun _ => List.cons_ne_nil _ _)

/-- Claim C5, evaluated at its failing input: the roster (one player
online initially) first empties on the re-query after tick 2 of 5.  The
countdown indeed stops after the 2 warn ticks, skipping the final
warning and all eviction; but the claimed save + settle-delay + stop
sequence never happens, because saveAndQuit is called without await
(line 198) and its coroutine never runs: no save and no quit command
appear in the trace. -/
theorem early_exit_unawaited :
    warn_and_restart false 5 5 c5rosters =
      [Ev.connectRcon, Ev.queryPlayers] ++ warnTick false 5 ++ warnTick false 4 ∧
    countMsgs (warn_and_restart false 5 5 c5rosters) = 2 ∧
    Ev.servermsg (send_rcon_message_text (restartMessage (5 * 2)) false) ∉
      warn_and_restart false 5 5 c5rosters ∧
    (warn_and_restart false 5 5 c5rosters).all (fun e => !isKickEv e) = true ∧
    Ev.saveCmd ∉ warn_and_restart false 5 5 c5rosters ∧
    Ev.quitCmd ∉ warn_and_restart false 5 5 c5rosters := by
  decide

/-- Helper: a countdown trace contains no quit command. -/
theorem quit_not_in_countdownLoop (tm : Bool) (rosters : Nat → List String) :
    ∀ N q, Ev.quitCmd ∉ (countdownLoop tm rosters N q).1 := by
  intro N
  induction N with
  | zero => intro q; simp [countdownLoop]
  | succ k ih =>
    intro q
    by_cases hq : (rosters q).isEmpty
    · simp [countdownLoop, hq, warnTick]
    · simp only [Bool.not_eq_true] at hq
      simp [countdownLoop, hq, warnTick, ih (q + 1)]

/-- Helper: in test mode the orchestration never issues the quit
command (the early stop is gated on not test_mode, and the real stop at
the end of the countdown likewise; the saveAndQuit coroutine is in any
case never awaited). -/
theorem quit_not_in_test_run (N T : Nat) (rosters : Nat → List String) :
    Ev.quitCmd ∉ warn_and_restart true N T rosters := by
  have hcd := quit_not_in_countdownLoop true rosters N 1
  unfold warn_and_restart
  by_cases hg : (countdownLoop true rosters N 1).2.1 <;> simp [hg, hcd]

/-- Helper: looking an id up in the snapshot just written from the
fresh mapping returns exactly the name and time_updated of that id, provided
the fresh mapping has no duplicate ids (it is a Python dict). -/
theorem lookupKey_snapshotData (modInfo : List (String × ModRecord))
    (hnd : (modInfo.map Prod.fst).Nodup) :
    ∀ p ∈ modInfo, lookupKey (snapshotData modInfo) p.1 =
      some ⟨p.2.name, p.2.time_updated⟩ := by
  induction modInfo with
  | nil => intro p hp; cases hp
  | cons head tail ih =>
    intro p hp
    rw [List.map_cons, List.nodup_cons] at hnd
    obtain ⟨hh, ht⟩ := hnd
    cases hp with
    | head => simp [snapshotData, lookupKey]
    | tail _ hp2 =>
      have h1 : p.1 ∈ tail.map Prod.fst := List.mem_map_of_mem Prod.fst hp2
      have hne : ¬ head.1 = p.1 := fun he => hh (he ▸ h1)
      simp only [snapshotData, List.map_cons, lookupKey, hne, if_false]
      simpa [snapshotData] using ih ht p hp2

/-- Helper: running the drift check again on the snapshot it just
wrote, with the same fresh mapping, reports no drift. -/
theorem rerun_no_drift (modInfo : List (String × ModRecord))
    (hnd : (modInfo.map Prod.fst).Nodup) :
    (are_mods_outdated modInfo (some (snapshotData modInfo))).outdated = false := by
  have hout : outdatedIds modInfo (snapshotData modInfo) = [] := by
    apply List.filterMap_eq_nil_iff.mpr
    intro p hp
    unfold isOutdatedEntry
    rw [lookupKey_snapshotData modInfo hnd p hp]
    simp
  have hemp : (outdatedIds modInfo (snapshotData modInfo)).isEmpty = true :=
    List.isEmpty_eq_true.mpr hout
  simp [are_mods_outdated, hemp]

/-- Claim C10: in dry-run mode, whenever drift is detected the
persisted snapshot is rewritten to the fresh values exactly as in a
real run (the write is performed by the detector, which has no test-mode
parameter and completes before the orchestration starts), the
orchestration then runs stop-less (no quit command), and an immediately
following real run over the same fresh mapping observes no drift. -/
theorem dryrun_snapshot_frame (modInfo : List (String × ModRecord))
    (snap : List (String × SnapEntry)) (N T : Nat) (rosters : Nat → List String)
    (hnd : (modInfo.map Prod.fst).Nodup)
    (h : (are_mods_outdated modInfo (some snap)).outdated = true) :
    (check_mods_and_handle modInfo (some snap) true N T rosters).written =
      some (snapshotData modInfo) ∧
    (check_mods_and_handle modInfo (some snap) true N T rosters).written =
      (check_mods_and_handle modInfo (some snap) false N T rosters).written ∧
    (check_mods_and_handle modInfo (some snap) true N T rosters).orchestration =
      some (warn_and_restart true N T rosters) ∧
    Ev.quitCmd ∉ warn_and_restart true N T rosters ∧
    (are_mods_outdated modInfo (some (snapshotData modInfo))).outdated = false := by
  have hw : (are_mods_outdated modInfo (some snap)).written =
      some (snapshotData modInfo) := by
    by_cases he : (outdatedIds modInfo snap).isEmpty
    · simp [are_mods_outdated, he] at h
    · simp only [Bool.not_eq_true] at he
      simp [are_mods_outdated, he]
  refine ⟨?_, ?_, ?_, quit_not_in_test_run N T rosters, rerun_no_drift modInfo hnd⟩
  · simpa [check_mods_and_handle] using hw
  · simp [check_mods_and_handle]
  · simp [check_mods_and_handle, h]

/-- Witness for dryrun_snapshot_frame at a concrete drifted input. -/
theorem dryrun_snapshot_frame_witness :
    (check_mods_and_handle sampleFresh (some sampleSnap) true 1 5 (fun _ => [])).written =
      some (snapshotData sampleFresh) ∧
    (check_mods_and_handle sampleFresh (some sampleSnap) true 1 5 (fun _ => [])).written =
      (check_mods_and_handle sampleFresh (some sampleSnap) false 1 5 (fun _ => [])).written ∧
    (check_mods_and_handle sampleFresh (some sampleSnap) true 1 5 (fun _ => [])).orchestration =
      some (warn_and_restart true 1 5 (fun _ => [])) ∧
    Ev.quitCmd ∉ warn_and_restart true 1 5 (fun _ => []) ∧
    (are_mods_outdated sampleFresh (some (snapshotData sampleFresh))).outdated = false :=
  dryrun_snapshot_frame sampleFresh sampleSnap 1 5 (fun _ => []) (by decide) (by decide)

/-- Helper: when every attempt of a batch fails, the retry loop
abandons the batch and performs the backoff wait of each attempt in
order. -/
theorem runBatchAux_all_fail (o : Nat → AttemptOutcome) :
    ∀ (fuel a : Nat), (∀ j, j < fuel → (o (a + j)).isSuccess = false) →
      runBatchAux o fuel a =
        (none, (List.range fuel).map (fun i => backoffWait (o (a + i)) (a + i))) := by
  intro fuel
  induction fuel with
  | zero => intro a _; simp [runBatchAux]
  | succ f ih =>
    intro a h
    have h0 : (o a).isSuccess = false := by simpa using h 0 (Nat.succ_pos f)
    have hrest := ih (a + 1) (fun j hj => by
      have h2 := h (j + 1) (by omega)
      have he : a + 1 + j = a + (j + 1) := by omega
      rw [he]
      exact h2)
    cases ho : o a
    case success d => rw [ho] at h0; simp [AttemptOutcome.isSuccess] at h0
    all_goals
      simp only [runBatchAux, ho, hrest]
      rw [List.range_succ_eq_map, List.map_cons, List.map_map]
      refine congrArg₂ Prod.mk rfl (congrArg₂ List.cons (by simp [ho]) ?_)
      refine List.map_congr_left (fun i _ => ?_)
      simp only [Function.comp_apply, Nat.succ_eq_add_one]
      have he : a + 1 + i = a + (i + 1) := by omega
      rw [he]

/-- Claim C7 as amended: on repeated failure a batch is retried for 5
attempts in total, each failed attempt (0-indexed a) being followed by a
wait of min(2 ** a, cap) seconds - that is 1, 2, 4, 8, 16 seconds, with
the cap 30 for generic errors and 60 for rate limiting (the base is 1
second, not the claimed 2) - and when all 5 attempts fail the batch is
abandoned: the accumulator of previously successful batches is kept
unchanged and the remaining batches are still processed. -/
theorem backoff_policy_amended (o : Nat → AttemptOutcome)
    (net : Nat → Nat → AttemptOutcome) (c : List String) (cs : List (List String))
    (b : Nat) (acc : List (String × ModRecord))
    (h : ∀ a, a < 5 → (o a).isSuccess = false)
    (hnet : net b = o) :
    (runBatch o).1 = none ∧
    (runBatch o).2 = (List.range 5).map (fun a => min (2 ^ a) (capFor (o a))) ∧
    fetchAux net (c :: cs) b acc = fetchAux net cs (b + 1) acc := by
  have hmain := runBatchAux_all_fail o 5 0 (fun j hj => by simpa using h j hj)
  refine ⟨?_, ?_, ?_⟩
  · simp [runBatch, hmain]
  · rw [runBatch, hmain]
    refine List.map_congr_left (fun i _ => ?_)
    simp [backoffWait]
  · have hnone : (runBatch (net b)).1 = none := by
      rw [hnet, runBatch, hmain]
    simp [fetchAux, hnone]

/-- Witness for backoff_policy_amended: every attempt fails with a bad
response; the batch list holds one further batch and a nonempty
accumulator that is preserved. -/
theorem backoff_policy_amended_witness :
    (runBatch (fun _ => AttemptOutcome.badResponse)).1 = none ∧
    (runBatch (fun _ => AttemptOutcome.badResponse)).2 =
      (List.range 5).map (fun a => min (2 ^ a) (capFor AttemptOutcome.badResponse)) ∧
    fetchAux (fun _ _ => AttemptOutcome.badResponse) [["101"]] 0 sampleFresh =
      fetchAux (fun _ _ => AttemptOutcome.badResponse) [] 1 sampleFresh :=
  backoff_policy_amended (fun _ => AttemptOutcome.badResponse)
    (fun _ _ => AttemptOutcome.badResponse) ["101"] [] 0 sampleFresh
    (fun _ _ => rfl) rfl

/-- Helper: the slices produced by chunks concatenate back to the
original list. -/
theorem chunks_flatten {α : Type} (n : Nat) (l : List α) :
    (chunks n l).flatten = l := by
  generalize hm : l.length = m
  induction m using Nat.strong_induction_on generalizing l with
  | _ m ih =>
    cases l with
    | nil => simp [chunks]
    | cons x xs =>
      simp only [chunks, List.flatten_cons]
      rw [ih ((xs.drop (n - 1)).length) (by rw [← hm]; simp; omega) _ rfl]
      rw [List.cons_append, List.take_append_drop]

/-- Helper: for a positive slice size every slice has length at most
the slice size. -/
theorem chunks_length_le {α : Type} (n : Nat) (hn : 0 < n) (l : List α) :
    ∀ c ∈ chunks n l, c.length ≤ n := by
  generalize hm : l.length = m
  induction m using Nat.strong_induction_on generalizing l with
  | _ m ih =>
    cases l with
    | nil => simp [chunks]
    | cons x xs =>
      intro c hc
      simp only [chunks] at hc
      rcases List.mem_cons.mp hc with h | h
      · subst h; simp [List.length_take]; omega
      · exact ih ((xs.drop (n - 1)).length) (by rw [← hm]; simp; omega) _ rfl c h

/-- Helper: every slice is nonempty. -/
theorem chunks_mem_ne_nil {α : Type} (n : Nat) (l : List α) :
    ∀ c ∈ chunks n l, c ≠ [] := by
  generalize hm : l.length = m
  induction m using Nat.strong_induction_on generalizing l with
  | _ m ih =>
    cases l with
    | nil => simp [chunks]
    | cons x xs =>
      intro c hc
      simp only [chunks] at hc
      rcases List.mem_cons.mp hc with h | h
      · subst h; exact List.cons_ne_nil _ _
      · exact ih ((xs.drop (n - 1)).length) (by rw [← hm]; simp; omega) _ rfl c h

/-- Helper: a nonempty list that fits in one slice is its own single
slice. -/
theorem chunks_eq_single {α : Type} (n : Nat) (l : List α) (hne : l ≠ [])
    (hlen : l.length ≤ n) : chunks n l = [l] := by
  cases l with
  | nil => exact absurd rfl hne
  | cons x xs =>
    simp only [chunks]
    have hx : xs.length ≤ n - 1 := by simp at hlen; omega
    rw [List.take_of_length_le hx, List.drop_eq_nil_of_le hx]
    simp [chunks]

/-- Helper: overwriting an existing key in place leaves the key list
unchanged. -/
theorem keys_map_overwrite {α : Type} (d : List (String × α)) (k : String) (v : α) :
    keys (d.map (fun p => if p.1 = k then (k, v) else p)) = keys d := by
  unfold keys
  rw [List.map_map]
  refine List.map_congr_left (fun p _ => ?_)
  by_cases hp : p.1 = k
  · simp [hp]
  · simp [hp]

/-- Helper: the key list of an append. -/
theorem keys_append {α : Type} (d e : List (String × α)) :
    keys (d ++ e) = keys d ++ keys e := by
  simp [keys]

/-- Helper: membership in the keys after a dict assignment. -/
theorem mem_keys_dictInsert {α : Type} (d : List (String × α)) (k k2 : String) (v : α) :
    k2 ∈ keys (dictInsert d k v) ↔ k2 ∈ keys d ∨ k2 = k := by
  unfold dictInsert
  by_cases hany : (d.any fun p => p.1 = k) = true
  · rw [if_pos hany, keys_map_overwrite]
    have hk : k ∈ keys d := by
      rw [List.any_eq_true] at hany
      obtain ⟨p, hp, he⟩ := hany
      have hpk : p.1 = k := of_decide_eq_true he
      exact hpk ▸ List.mem_map_of_mem Prod.fst hp
    constructor
    · exact Or.inl
    · rintro (h | rfl)
      · exact h
      · exact hk
  · rw [if_neg hany, keys_append]
    simp [keys]

/-- Helper: dict assignment preserves key nodup. -/
theorem nodup_keys_dictInsert {α : Type} (d : List (String × α)) (k : String) (v : α)
    (h : (keys d).Nodup) : (keys (dictInsert d k v)).Nodup := by
  unfold dictInsert
  by_cases hany : (d.any fun p => p.1 = k) = true
  · rw [if_pos hany, keys_map_overwrite]; exact h
  · rw [if_neg hany, keys_append]
    have hk : k ∉ keys d := by
      intro hkk
      apply hany
      rw [List.any_eq_true]
      rw [keys, List.mem_map] at hkk
      obtain ⟨p, hp, he⟩ := hkk
      exact ⟨p, hp, by simp [he]⟩
    simp [keys, List.nodup_append]
    exact ⟨h, fun x hx => hk (List.mem_map_of_mem Prod.fst hx)⟩

/-- Helper: membership in the keys after dict.update. -/
theorem mem_keys_dictUpdate {α : Type} :
    ∀ (upd d : List (String × α)) (k2 : String),
      k2 ∈ keys (dictUpdate d upd) ↔ k2 ∈ keys d ∨ k2 ∈ keys upd := by
  intro upd
  induction upd with
  | nil => intro d k2; simp [dictUpdate, keys]
  | cons p rest ih =>
    intro d k2
    show k2 ∈ keys (dictUpdate (dictInsert d p.1 p.2) rest) ↔ _
    rw [ih, mem_keys_dictInsert]
    simp [keys]
    tauto

/-- Helper: dict.update preserves key nodup. -/
theorem nodup_keys_dictUpdate {α : Type} :
    ∀ (upd d : List (String × α)), (keys d).Nodup →
      (keys (dictUpdate d upd)).Nodup := by
  intro upd
  induction upd with
  | nil => intro d h; exact h
  | cons p rest ih =>
    intro d h
    exact ih (dictInsert d p.1 p.2) (nodup_keys_dictInsert d p.1 p.2 h)

/-- Helper: a nonempty id list that fits the default inner batch size
is fetched as one batch; on success the result is the returned details
dict-ified. -/
theorem fetch_single_batch (c : List String) (g : Nat → Nat → AttemptOutcome)
    (data : List (String × ModRecord)) (hne : c ≠ []) (hlen : c.length ≤ 100)
    (hs : (runBatch (g 0)).1 = some data) :
    fetch_workshop_details c 100 g = dictUpdate [] data := by
  have hce : c.isEmpty = false := List.isEmpty_eq_false.mpr hne
  unfold fetch_workshop_details
  rw [chunks_eq_single 100 c hne hlen]
  simp [hce, fetchAux, hs]

/-- Helper: shifting an existential over a bounded index by one. -/
theorem exists_lt_succ_shift (P : Nat → Prop) (n b : Nat) :
    (∃ i, i < n + 1 ∧ P (b + i)) ↔ P b ∨ ∃ i, i < n ∧ P (b + 1 + i) := by
  constructor
  · rintro ⟨i, hi, hp⟩
    cases i with
    | zero => left; simpa using hp
    | succ j =>
      right
      refine ⟨j, by omega, ?_⟩
      have he : b + 1 + j = b + (j + 1) := by omega
      rw [he]; exact hp
  · rintro (hp | ⟨i, hi, hp⟩)
    · exact ⟨0, by omega, by simpa using hp⟩
    · refine ⟨i + 1, by omega, ?_⟩
      have he : b + (i + 1) = b + 1 + i := by omega
      rw [he]; exact hp

/-- Helper: the keys accumulated by the outer batching loop are the
keys of the accumulator together with the keys returned by each
remaining batch. -/
theorem createAux_keys (net : Nat → Nat → Nat → AttemptOutcome)
    (returned : Nat → List (String × ModRecord))
    (hsucc : ∀ b, (runBatch (net b 0)).1 = some (returned b)) :
    ∀ (cs : List (List String)) (b : Nat) (acc : List (String × ModRecord)),
      (∀ c ∈ cs, c ≠ [] ∧ c.length ≤ 100) →
      (∀ k2, k2 ∈ keys (create_modInfoAux net cs b acc) ↔
        k2 ∈ keys acc ∨ ∃ i, i < cs.length ∧ k2 ∈ keys (returned (b + i))) := by
  intro cs
  induction cs with
  | nil => intro b acc hc k2; simp [create_modInfoAux]
  | cons c rest ih =>
    intro b acc hc k2
    obtain ⟨hne, hlen⟩ := hc c (List.mem_cons_self c rest)
    have hrest : ∀ c2 ∈ rest, c2 ≠ [] ∧ c2.length ≤ 100 :=
      fun c2 h2 => hc c2 (List.mem_cons_of_mem c h2)
    have hfetch : fetch_workshop_details c 100 (net b) = dictUpdate [] (returned b) :=
      fetch_single_batch c (net b) (returned b) hne hlen (hsucc b)
    simp only [create_modInfoAux, hfetch, List.length_cons]
    by_cases hemp : (dictUpdate ([] : List (String × ModRecord)) (returned b)).isEmpty
    · have hkeys : k2 ∉ keys (returned b) := by
        intro hk3
        have hmem : k2 ∈ keys (dictUpdate ([] : List (String × ModRecord)) (returned b)) :=
          (mem_keys_dictUpdate (returned b) [] k2).mpr (Or.inr hk3)
        rw [List.isEmpty_eq_true.mp hemp] at hmem
        cases hmem
      rw [if_pos hemp, ih (b + 1) acc hrest k2,
        exists_lt_succ_shift (fun m => k2 ∈ keys (returned m)) rest.length b]
      tauto
    · rw [if_neg hemp, ih (b + 1) (dictUpdate acc (dictUpdate [] (returned b))) hrest k2,
        mem_keys_dictUpdate, mem_keys_dictUpdate,
        exists_lt_succ_shift (fun m => k2 ∈ keys (returned m)) rest.length b]
      simp [keys]
      tauto

/-- Helper: the outer batching loop preserves key nodup. -/
theorem createAux_nodup (net : Nat → Nat → Nat → AttemptOutcome) :
    ∀ (cs : List (List String)) (b : Nat) (acc : List (String × ModRecord)),
      (keys acc).Nodup → (keys (create_modInfoAux net cs b acc)).Nodup := by
  intro cs
  induction cs with
  | nil => intro b acc h; exact h
  | cons c rest ih =>
    intro b acc h
    exact ih (b + 1) _ (by
      by_cases hemp : (fetch_workshop_details c 100 (net b)).isEmpty
      · rw [if_pos hemp]; exact h
      · rw [if_neg hemp]; exact nodup_keys_dictUpdate _ acc h)

/-- Claim C8: for every ordered id list, the fetch partitions the ids
into consecutive batches of at most the configured batch size, and when
every batch fetch succeeds, the key set of the returned mapping equals
the union of the ids returned across batches - no id lost across
batches, and the result is a proper mapping with no duplicate keys. -/
theorem batch_partition_and_keys (BATCH : Nat) (ids : List String)
    (net : Nat → Nat → Nat → AttemptOutcome)
    (returned : Nat → List (String × ModRecord))
    (hB : 0 < BATCH) (hB100 : BATCH ≤ 100)
    (hsucc : ∀ b, (runBatch (net b 0)).1 = some (returned b)) :
    (chunks BATCH ids).flatten = ids ∧
    (∀ c ∈ chunks BATCH ids, c.length ≤ BATCH) ∧
    (∀ k2, k2 ∈ keys (create_modInfo BATCH ids net) ↔
      ∃ i, i < (chunks BATCH ids).length ∧ k2 ∈ keys (returned i)) ∧
    (keys (create_modInfo BATCH ids net)).Nodup := by
  have hchunk : ∀ c ∈ chunks BATCH ids, c ≠ [] ∧ c.length ≤ 100 :=
    fun c hc => ⟨chunks_mem_ne_nil BATCH ids c hc,
      le_trans (chunks_length_le BATCH hB ids c hc) hB100⟩
  refine ⟨chunks_flatten BATCH ids, chunks_length_le BATCH hB ids, ?_, ?_⟩
  · intro k2
    unfold create_modInfo
    by_cases hids : ids.isEmpty
    · rw [if_pos hids]
      have hnil : ids = [] := List.isEmpty_eq_true.mp hids
      subst hnil
      simp [chunks, keys]
    · rw [if_neg hids, createAux_keys net returned hsucc (chunks BATCH ids) 0 [] hchunk k2]
      simp [keys]
  · unfold create_modInfo
    by_cases hids : ids.isEmpty
    · rw [if_pos hids]; simp [keys]
    · rw [if_neg hids]
      exact createAux_nodup net (chunks BATCH ids) 0 [] (by simp [keys])

/-- Witness for batch_partition_and_keys: two ids, batch size 50, a
network that always succeeds with the sample details. -/
theorem batch_partition_and_keys_witness :
    (chunks 50 ["101", "202"]).flatten = ["101", "202"] ∧
    (∀ c ∈ chunks 50 ["101", "202"], c.length ≤ 50) ∧
    (∀ k2, k2 ∈ keys (create_modInfo 50 ["101", "202"]
        (fun _ _ _ => AttemptOutcome.success sampleFresh)) ↔
      ∃ i, i < (chunks 50 ["101", "202"]).length ∧ k2 ∈ keys sampleFresh) ∧
    (keys (create_modInfo 50 ["101", "202"]
        (fun _ _ _ => AttemptOutcome.success sampleFresh))).Nodup :=
  batch_partition_and_keys 50 ["101", "202"]
    (fun _ _ _ => AttemptOutcome.success sampleFresh) (fun _ => sampleFresh)
    (by decide) (by decide) (fun _ => rfl)
